import Mathlib

/-!
Shallow embedding of the `/api/did-talk` handler of `src/server.js`
(ai-tutor-server): input validation, the D-ID job-creation POST, the
fixed-interval poll loop, and response assembly.

Modelling conventions:
- JSON bodies are `JVal` (null, strings, objects — the only shapes the
  handler inspects or builds).
- The network is an oracle `Env`: the job-creation fetch outcome and a
  stream of status-query outcomes, one per poll-loop iteration.
- Effects are an event trace (`Event`): the creation call with its exact
  payload, each `setTimeout` wait (in milliseconds), and each status
  query with the talk id interpolated into its URL.
- `res.json` / `res.status(...).json` statements are recorded as response
  attempts (`Sent`, HTTP code plus body) in execution order.
- The unbounded `while` loop is given fuel; exhausted fuel yields the
  `running` outcome, so "no fuel suffices" states non-termination.
- Fetch response bodies are single-read: `createResponse.text()` at
  line 145 consumes the body, so the unconditional `createResponse.json()`
  at line 148 rejects (TypeError, `bodyUnusableMsg`) whenever the non-ok
  branch ran first. A body that resolves but is not valid JSON makes
  `.json()` reject with a parse error (`jsonParseErrorMsg`). Member access
  on `null` throws (`nullMemberMsg`). Any rejection inside the `try` block
  lands in the `catch`, which attempts a 502 response.
-/

namespace AiTutorServer

/-- Minimal JSON value model for the bodies exchanged with the D-ID API:
`null`, strings, and objects, the only shapes `server.js` builds or reads. -/
inductive JVal where
  | jnull : JVal
  | jstr : String → JVal
  | jobj : List (String × JVal) → JVal
deriving Repr

/-- Field lookup in an object field list (first binding wins). -/
def lookupField : List (String × JVal) → String → Option JVal
  | [], _ => none
  | (k, v) :: fs, key => if k = key then some v else lookupField fs key

/-- JavaScript member access `v.key` on a non-null value: a field of an
object (missing fields give `undefined`, here `none`); `undefined` on any
other non-null value. Access on `null` throws and is handled separately. -/
def JVal.get : JVal → String → Option JVal
  | .jobj fs, key => lookupField fs key
  | _, _ => none

/-- JavaScript truthiness of the modelled values: `null` and `""` are falsy. -/
def JVal.truthy : JVal → Bool
  | .jnull => false
  | .jstr s => !(s == "")
  | .jobj _ => true

/-- Truthiness of `talkResult.status === "done" || … === "error"` rewritten as
a predicate: the status field holds the string `done` or `error`. -/
def terminalStatus (t : JVal) : Bool :=
  match t.get "status" with
  | some (.jstr s) => s == "done" || s == "error"
  | _ => false

/-- The `while` guard of line 154:
`!talkResult || (talkResult.status !== "done" && talkResult.status !== "error")`. -/
def continuePolling (t : JVal) : Bool :=
  !t.truthy || !(terminalStatus t)

/-- `talkResult.status === "done"` (line 169). -/
def isDone (t : JVal) : Bool :=
  match t.get "status" with
  | some (.jstr s) => s == "done"
  | _ => false

/-- Template-literal stringification for `${talkId}` in the status-query URL:
`undefined`, `null`, plain strings, and default object stringification. -/
def templateString : Option JVal → String
  | none => "undefined"
  | some .jnull => "null"
  | some (.jstr s) => s
  | some (.jobj _) => "[object Object]"

/-- Message of the TypeError thrown by reading a fetch body a second time
(the non-ok branch at line 145 has already consumed it with `.text()`). -/
def bodyUnusableMsg : String := "Body is unusable"

/-- Message of the error thrown by `.json()` on a body that is not valid JSON. -/
def jsonParseErrorMsg : String := "Unexpected token in JSON"

/-- Message of the TypeError thrown by member access on `null`
(`createData.id` at line 149 when the parsed creation body is `null`). -/
def nullMemberMsg : String := "Cannot read properties of null"

/-- Outcome of one status-query fetch (line 159 + line 166): the fetch
rejects at the network level, or it resolves and `.json()` yields a parsed
body (`some`) or throws on an unparseable one (`none`). -/
inductive PollResp where
  | netErr : String → PollResp
  | ok : Option JVal → PollResp

/-- Outcome of the job-creation fetch (line 108): network rejection, or a
response with its `ok` flag, its raw text body, and the result of parsing
that body as JSON (`none` when parsing would throw). -/
inductive CreateResult where
  | netErr : String → CreateResult
  | resp : Bool → String → Option JVal → CreateResult

/-- Network oracle for one request: the creation outcome and the status-query
outcome for each poll iteration `i`. -/
structure Env where
  create : CreateResult
  polls : Nat → PollResp

/-- Observable effects of the handler, in execution order. -/
inductive Event where
  | createCall : JVal → Event
  | wait : Nat → Event
  | statusQuery : String → Event
deriving Repr

/-- One response attempt: an executed `res.json` / `res.status(...).json`
statement, with the HTTP status code (200 for bare `res.json`) and body. -/
structure Sent where
  code : Nat
  body : JVal
deriving Repr

/-- Result of the poll loop under a given amount of fuel. -/
inductive LoopOutcome where
  | terminal : JVal → LoopOutcome
  | threw : String → LoopOutcome
  | fuelOut : LoopOutcome
deriving Repr

/-- Result of the whole handler: it produced its response attempts, or it is
still inside the poll loop when the fuel runs out. -/
inductive Outcome where
  | finished : List Sent → Outcome
  | running : Outcome
deriving Repr

/-- Environment config read by the handler: `process.env.DID_API_KEY` and
`process.env.DID_SOURCE_URL` (`none` = variable unset). -/
structure Config where
  DID_API_KEY : Option String
  DID_SOURCE_URL : Option String

/-- Request body for the route: the `text` field (`none` = field absent). -/
structure Req where
  text : Option String

/-- JavaScript falsiness of an optional string field: absent or empty. -/
def jsFalsy : Option String → Bool
  | none => true
  | some s => s == ""

/-- The avatar reference hardcoded into the creation payload (line 115). -/
def aliceSourceUrl : String :=
  "https://d-id-public-bucket.s3.us-west-2.amazonaws.com/alice.jpg"

/-- The fallback of `process.env.DID_SOURCE_URL || "…"` (line 101). -/
def defaultSourceUrl : String := "https://randomuser.me/api/portraits/women/65.jpg"

/-- Line 101: `process.env.DID_SOURCE_URL || "<default>"`. -/
def sourceUrlOf (cfg : Config) : String :=
  match cfg.DID_SOURCE_URL with
  | none => defaultSourceUrl
  | some s => if s == "" then defaultSourceUrl else s

/-- The JSON body of the job-creation POST (lines 114-139). The
`source_url` field is the hardcoded `aliceSourceUrl` constant; the
`sourceUrlOf` value computed at line 101 does not appear in it. -/
def createPayload (text : String) : JVal :=
  .jobj [
    ("source_url", .jstr aliceSourceUrl),
    ("script", .jobj [
      ("type", .jstr "text"),
      ("provider", .jobj [
        ("type", .jstr "microsoft"),
        ("voice_id", .jstr "en-US-JennyNeural")]),
      ("input", .jstr text)])]

/-- The catch block of lines 181-184: `res.status(502).json({...})`. -/
def send502 (msg : String) : Sent :=
  ⟨502, .jobj [("error", .jstr "D-ID error"), ("detail", .jstr msg)]⟩

/-- Line 172: `talkResult.result_url ?? talkResult` — nullish coalescing
falls back to the whole terminal payload when the field is absent or null. -/
def videoUrlOf (t : JVal) : JVal :=
  match t.get "result_url" with
  | none => t
  | some .jnull => t
  | some v => v

/-- Lines 169-177: on `done`, the success response is sent, and then the
500 response statement at line 177 executes unconditionally (no `return`
and no `else` around it). -/
def terminalSends (t : JVal) : List Sent :=
  (if isDone t then [⟨200, .jobj [("videoUrl", videoUrlOf t)]⟩] else []) ++
  [⟨500, .jobj [("error", .jstr "D-ID processing failed"), ("detail", t)]⟩]

/-- The poll loop of lines 154-167, with fuel. Each iteration waits 3000 ms
(line 156), issues the status query (line 159), and reads its body
(line 166): a network rejection or an unparseable body throws out of the
loop; otherwise the guard of line 154 decides whether to continue. `i`
indexes the oracle's answer for the current iteration. -/
def pollLoop (polls : Nat → PollResp) (talkId : String) :
    Nat → Nat → List Event × LoopOutcome
  | 0, _ => ([], .fuelOut)
  | fuel + 1, i =>
    let step : List Event := [.wait 3000, .statusQuery talkId]
    match polls i with
    | .netErr msg => (step, .threw msg)
    | .ok none => (step, .threw jsonParseErrorMsg)
    | .ok (some t) =>
      if continuePolling t then
        let rest := pollLoop polls talkId fuel (i + 1)
        (step ++ rest.1, rest.2)
      else
        (step, .terminal t)

/-- The `/api/did-talk` handler (lines 97-185). Control flow in order:
the `!text` validation (lines 98-99), the config check (lines 103-105),
the creation fetch (line 108), the non-ok branch that answers with the raw
body but does not return (lines 143-146), the unconditional
`createResponse.json()` (line 148) — which throws when the non-ok branch
already consumed the body, or when the body is unparseable, or, at
line 149, when the parsed body is `null` — the poll loop (lines 154-167),
response assembly (lines 169-177), and the catch mapping any thrown error
to a 502 attempt (lines 181-184). -/
def didTalkHandler (cfg : Config) (req : Req) (env : Env) (fuel : Nat) :
    List Event × Outcome :=
  if jsFalsy req.text then
    ([], .finished [⟨400, .jobj [("error", .jstr "text required")]⟩])
  else if jsFalsy cfg.DID_API_KEY || sourceUrlOf cfg == "" then
    ([], .finished
      [⟨500, .jobj [("error", .jstr "D-ID key or source image not configured")]⟩])
  else
    let text := req.text.getD ""
    let payload := createPayload text
    match env.create with
    | .netErr msg => ([.createCall payload], .finished [send502 msg])
    | .resp okFlag rawBody parsedBody =>
      let rejectedSends : List Sent :=
        if okFlag then []
        else [⟨200, .jobj [("error", .jstr "D-ID creation failed"),
                           ("detail", .jstr rawBody)]⟩]
      let jsonRead : Except String JVal :=
        if okFlag then
          match parsedBody with
          | some j => .ok j
          | none => .error jsonParseErrorMsg
        else .error bodyUnusableMsg
      match jsonRead with
      | .error msg =>
        ([.createCall payload], .finished (rejectedSends ++ [send502 msg]))
      | .ok .jnull =>
        ([.createCall payload], .finished (rejectedSends ++ [send502 nullMemberMsg]))
      | .ok createData =>
        let talkId := templateString (createData.get "id")
        let looped := pollLoop env.polls talkId fuel 0
        (.createCall payload :: looped.1,
         match looped.2 with
         | .terminal t => .finished (rejectedSends ++ terminalSends t)
         | .threw msg => .finished (rejectedSends ++ [send502 msg])
         | .fuelOut => .running)

/-! Helper lemmas shared by the claim theorems. -/

/-- The `sourceUrl` of line 101 is never the empty string: the `||` fallback
replaces an unset or empty `DID_SOURCE_URL` by a non-empty constant, so the
`!sourceUrl` half of the config check at line 103 never fires. -/
theorem sourceUrlOf_ne_empty (cfg : Config) : (sourceUrlOf cfg == "") = false := by
  unfold sourceUrlOf
  cases cfg.DID_SOURCE_URL with
  | none => rfl
  | some s =>
    by_cases h : s == ""
    · simp [h]; decide
    · simp [h]

/-- A status observation that is not terminal makes the loop guard continue. -/
theorem continuePolling_of_not_terminal (t : JVal) (h : terminalStatus t = false) :
    continuePolling t = true := by
  unfold continuePolling
  simp [h]

/-- A terminal status observation is an object, hence truthy, and makes the
loop guard stop. -/
theorem continuePolling_of_terminal (t : JVal) (h : terminalStatus t = true) :
    continuePolling t = false := by
  unfold continuePolling
  cases t with
  | jnull => simp [terminalStatus, JVal.get] at h
  | jstr s => simp [terminalStatus, JVal.get] at h
  | jobj fs => simp [JVal.truthy, h]

/-- Evaluation of the handler up to the poll loop, in the path where the
validation and config checks pass and the creation response is ok with a
parsed object body: the handler issues the creation call, derives the talk
id from the body's `id` field, and its fate is the poll loop's. -/
theorem didTalk_ok_eval (cfg : Config) (req : Req) (env : Env) (fuel : Nat)
    (rawBody : String) (fs : List (String × JVal))
    (htext : jsFalsy req.text = false)
    (hkey : jsFalsy cfg.DID_API_KEY = false)
    (hcreate : env.create = .resp true rawBody (some (.jobj fs))) :
    didTalkHandler cfg req env fuel =
      (Event.createCall (createPayload (req.text.getD "")) ::
        (pollLoop env.polls (templateString (lookupField fs "id")) fuel 0).1,
       match (pollLoop env.polls (templateString (lookupField fs "id")) fuel 0).2 with
       | .terminal t => .finished (terminalSends t)
       | .threw msg => .finished [send502 msg]
       | .fuelOut => .running) := by
  unfold didTalkHandler
  rw [htext, hcreate]
  simp [hkey, sourceUrlOf_ne_empty, JVal.get]

/-- One iteration of the loop as it appears in the trace: the 3000 ms wait
of line 156 followed by the status query of line 159. -/
def pollBlock (talkId : String) : List Event :=
  [.wait 3000, .statusQuery talkId]

/-- Classifies a status-query outcome that throws out of the loop, with the
message the `catch` block will see: a network rejection or an unparseable
body. A parsed body never throws. -/
def pollFailMsg : PollResp → Option String
  | .netErr m => some m
  | .ok none => some jsonParseErrorMsg
  | .ok (some _) => none

/-- Every poll-loop trace is a whole number of wait-then-query blocks: the
first query is preceded by a wait, and each later query follows the
completion of the previous one plus one full wait. -/
theorem pollLoop_trace_shape (polls : Nat → PollResp) (talkId : String) :
    ∀ fuel i, ∃ n, n ≤ fuel ∧
      (pollLoop polls talkId fuel i).1 = (List.replicate n (pollBlock talkId)).flatten := by
  intro fuel
  induction fuel with
  | zero => exact fun i => ⟨0, Nat.le_refl 0, rfl⟩
  | succ fuel ih =>
    intro i
    unfold pollLoop
    cases hpi : polls i with
    | netErr m => exact ⟨1, by omega, by simp [pollBlock]⟩
    | ok o =>
      cases o with
      | none => exact ⟨1, by omega, by simp [pollBlock]⟩
      | some t =>
        by_cases hc : continuePolling t
        · obtain ⟨n, hn, htr⟩ := ih (i + 1)
          exact ⟨n + 1, by omega, by simp [hc, htr, pollBlock, List.replicate_succ]⟩
        · exact ⟨1, by omega, by simp [hc, pollBlock]⟩

/-- If the first `k` status observations keep the guard of line 154 true and
observation `k` stops it, the loop runs exactly `k + 1` wait-then-query
iterations and ends with that observation. -/
theorem pollLoop_first_stop (polls : Nat → PollResp) (talkId : String) (t : JVal) :
    ∀ k fuel i, k < fuel →
      (∀ m, m < k → ∃ u, polls (i + m) = .ok (some u) ∧ continuePolling u = true) →
      polls (i + k) = .ok (some t) → continuePolling t = false →
      pollLoop polls talkId fuel i =
        ((List.replicate (k + 1) (pollBlock talkId)).flatten, .terminal t) := by
  intro k
  induction k with
  | zero =>
    intro fuel i hk hpend hobs hstop
    match fuel, hk with
    | fuel + 1, _ =>
      unfold pollLoop
      rw [Nat.add_zero] at hobs
      rw [hobs]
      simp [hstop, pollBlock]
  | succ k ih =>
    intro fuel i hk hpend hobs hstop
    match fuel, hk with
    | fuel + 1, hk =>
      obtain ⟨u, hu, hcu⟩ := hpend 0 (Nat.succ_pos k)
      rw [Nat.add_zero] at hu
      unfold pollLoop
      rw [hu]
      have hrest := ih fuel (i + 1) (Nat.lt_of_succ_lt_succ hk)
        (fun m hm => by
          have h := hpend (m + 1) (Nat.succ_lt_succ hm)
          rwa [show i + (m + 1) = i + 1 + m by omega] at h)
        (by rwa [show i + 1 + k = i + (k + 1) by omega])
        hstop
      simp [hcu, hrest, pollBlock, List.replicate_succ]

/-- If the first `k` status observations keep the guard true and query `k`
throws (network rejection or unparseable body), the loop runs exactly
`k + 1` wait-then-query iterations and rethrows that failure. -/
theorem pollLoop_first_fail (polls : Nat → PollResp) (talkId : String) (msg : String) :
    ∀ k fuel i, k < fuel →
      (∀ m, m < k → ∃ u, polls (i + m) = .ok (some u) ∧ continuePolling u = true) →
      pollFailMsg (polls (i + k)) = some msg →
      pollLoop polls talkId fuel i =
        ((List.replicate (k + 1) (pollBlock talkId)).flatten, .threw msg) := by
  intro k
  induction k with
  | zero =>
    intro fuel i hk hpend hfail
    match fuel, hk with
    | fuel + 1, _ =>
      rw [Nat.add_zero] at hfail
      unfold pollLoop
      cases hpi : polls i with
      | netErr m =>
        rw [hpi] at hfail
        simp [pollFailMsg] at hfail
        simp [hfail, pollBlock]
      | ok o =>
        cases o with
        | none =>
          rw [hpi] at hfail
          simp [pollFailMsg] at hfail
          simp [hfail, pollBlock]
        | some t =>
          rw [hpi] at hfail
          simp [pollFailMsg] at hfail
  | succ k ih =>
    intro fuel i hk hpend hfail
    match fuel, hk with
    | fuel + 1, hk =>
      obtain ⟨u, hu, hcu⟩ := hpend 0 (Nat.succ_pos k)
      rw [Nat.add_zero] at hu
      unfold pollLoop
      rw [hu]
      have hrest := ih fuel (i + 1) (Nat.lt_of_succ_lt_succ hk)
        (fun m hm => by
          have h := hpend (m + 1) (Nat.succ_lt_succ hm)
          rwa [show i + (m + 1) = i + 1 + m by omega] at h)
        (by rwa [show i + 1 + k = i + (k + 1) by omega])
      simp [hcu, hrest, pollBlock, List.replicate_succ]

/-- If every status observation is non-terminal, no amount of fuel makes the
loop produce anything: it is still running whenever it is cut off. -/
theorem pollLoop_pending_forever (polls : Nat → PollResp) (talkId : String)
    (hp : ∀ i, ∃ t, polls i = .ok (some t) ∧ terminalStatus t = false) :
    ∀ fuel i, (pollLoop polls talkId fuel i).2 = .fuelOut := by
  intro fuel
  induction fuel with
  | zero => exact fun i => rfl
  | succ fuel ih =>
    intro i
    obtain ⟨t, hpi, ht⟩ := hp i
    unfold pollLoop
    rw [hpi]
    simp [continuePolling_of_not_terminal t ht, ih (i + 1)]

/-- As soon as the loop body runs at least once, a status query for the talk
id is issued. -/
theorem pollLoop_query_issued (polls : Nat → PollResp) (talkId : String)
    (fuel i : Nat) :
    Event.statusQuery talkId ∈ (pollLoop polls talkId (fuel + 1) i).1 := by
  unfold pollLoop
  cases polls i with
  | netErr m => simp
  | ok o =>
    cases o with
    | none => simp
    | some t =>
      by_cases hc : continuePolling t
      · simp [hc]
      · simp [hc]

/-- In the ok-creation path, a loop ending in a terminal observation makes
the handler finish with the response attempts of lines 169-177. -/
theorem didTalk_terminal_eval (cfg : Config) (req : Req) (env : Env) (fuel : Nat)
    (rawBody : String) (fs : List (String × JVal)) (t : JVal)
    (htext : jsFalsy req.text = false)
    (hkey : jsFalsy cfg.DID_API_KEY = false)
    (hcreate : env.create = .resp true rawBody (some (.jobj fs)))
    (hloop : (pollLoop env.polls (templateString (lookupField fs "id")) fuel 0).2 =
      .terminal t) :
    (didTalkHandler cfg req env fuel).2 = .finished (terminalSends t) := by
  rw [didTalk_ok_eval cfg req env fuel rawBody fs htext hkey hcreate]
  simp [hloop]

/-- With a valid script and key, whatever the network does, the first event
of the trace is the creation call carrying the fixed payload. -/
theorem didTalk_first_event (cfg : Config) (req : Req) (env : Env) (fuel : Nat)
    (htext : jsFalsy req.text = false)
    (hkey : jsFalsy cfg.DID_API_KEY = false) :
    (didTalkHandler cfg req env fuel).1.head? =
      some (.createCall (createPayload (req.text.getD ""))) := by
  cases henv : env.create with
  | netErr m =>
    unfold didTalkHandler
    rw [htext, henv]
    simp [hkey, sourceUrlOf_ne_empty]
  | resp okFlag rawBody parsedBody =>
    unfold didTalkHandler
    rw [htext, henv]
    cases okFlag with
    | false => simp [hkey, sourceUrlOf_ne_empty]
    | true =>
      cases parsedBody with
      | none => simp [hkey, sourceUrlOf_ne_empty]
      | some j =>
        cases j with
        | jnull => simp [hkey, sourceUrlOf_ne_empty]
        | jstr s => simp [hkey, sourceUrlOf_ne_empty]
        | jobj fs => simp [hkey, sourceUrlOf_ne_empty]

/-! Concrete fixtures used by the witnesses and counterexamples. -/

/-- A config with a key set and `DID_SOURCE_URL` unset. -/
def cfg0 : Config := ⟨some "demo-key", none⟩

/-- A request with a non-empty script. -/
def req0 : Req := ⟨some "Hello world"⟩

/-- A non-terminal status observation. -/
def pendingJson : JVal := .jobj [("status", .jstr "pending")]

/-- A terminal success observation carrying a result URL. -/
def doneJson : JVal :=
  .jobj [("status", .jstr "done"), ("result_url", .jstr "https://cdn/video.mp4")]

/-- A terminal success observation with no result-URL field. -/
def doneNoUrlJson : JVal := .jobj [("status", .jstr "done")]

/-- An environment whose creation response is ok but has no `id` field, and
whose first status query reports `done`. -/
def envNoId : Env :=
  ⟨.resp true "empty-object-body" (some (.jobj [])), fun _ => .ok (some doneJson)⟩

/-- An environment whose creation succeeds with id `abc123` and whose every
status query reports `pending`. -/
def envPendingForever : Env :=
  ⟨.resp true "created-abc123" (some (.jobj [("id", .jstr "abc123")])),
   fun _ => .ok (some pendingJson)⟩

/-- An environment whose creation succeeds with id `abc123` and whose first
status query reports `done` without a result URL. -/
def envDoneNoUrl : Env :=
  ⟨.resp true "created-abc123" (some (.jobj [("id", .jstr "abc123")])),
   fun _ => .ok (some doneNoUrlJson)⟩

/-- An environment whose creation succeeds with id `abc123` and whose first
status query reports `done` with a result URL. -/
def envDone : Env :=
  ⟨.resp true "created-abc123" (some (.jobj [("id", .jstr "abc123")])),
   fun _ => .ok (some doneJson)⟩

/-- Status-query stream: two `pending` observations, then `done`. -/
def polls3 : Nat → PollResp
  | 0 => .ok (some pendingJson)
  | 1 => .ok (some pendingJson)
  | _ => .ok (some doneJson)

/-- Status-query stream: one `pending` observation, then a network error. -/
def pollsFail : Nat → PollResp
  | 0 => .ok (some pendingJson)
  | _ => .netErr "socket hang up"

/-! Claim theorems. -/

/-- C1: when the job-creation call returns a non-success response, the
handler signals the rejection in a response carrying the raw response body,
the error is terminal for the request (the only further activity is the 502
attempt produced when line 148 re-reads the already-consumed body, and
nothing is retried), and the event trace holds the single creation call and
no status query whatsoever. -/
theorem c1_provider_rejected_terminal (cfg : Config) (req : Req) (env : Env)
    (fuel : Nat) (rawBody : String) (parsedBody : Option JVal)
    (htext : jsFalsy req.text = false)
    (hkey : jsFalsy cfg.DID_API_KEY = false)
    (hcreate : env.create = .resp false rawBody parsedBody) :
    didTalkHandler cfg req env fuel =
      ([.createCall (createPayload (req.text.getD ""))],
       .finished
         [⟨200, .jobj [("error", .jstr "D-ID creation failed"),
                       ("detail", .jstr rawBody)]⟩,
          send502 bodyUnusableMsg]) := by
  unfold didTalkHandler
  rw [htext, hcreate]
  simp [hkey, sourceUrlOf_ne_empty]

/-- C1 witness: a concrete rejected creation; the trace has no status query
and the rejection response carries the raw body. -/
theorem c1_provider_rejected_terminal_witness :
    didTalkHandler cfg0 req0 ⟨.resp false "quota exceeded" none, fun _ => .ok none⟩ 5 =
      ([.createCall (createPayload "Hello world")],
       .finished
         [⟨200, .jobj [("error", .jstr "D-ID creation failed"),
                       ("detail", .jstr "quota exceeded")]⟩,
          send502 bodyUnusableMsg]) :=
  c1_provider_rejected_terminal cfg0 req0
    ⟨.resp false "quota exceeded" none, fun _ => .ok none⟩ 5 "quota exceeded" none
    (by decide) (by decide) rfl

/-- C2 counterexample: with a creation response whose object body has no
`id` field, the handler does not stop with a malformed-response error and
zero status queries — it issues a status query, for the interpolated id
string "undefined". -/
theorem c2_counterexample :
    (didTalkHandler cfg0 req0 envNoId 5).1 =
      [.createCall (createPayload "Hello world"),
       .wait 3000, .statusQuery "undefined"] ∧
    Event.statusQuery "undefined" ∈ (didTalkHandler cfg0 req0 envNoId 5).1 :=
  ⟨rfl, List.Mem.tail _ (List.Mem.tail _ (List.Mem.head _))⟩

/-- C2 amended: when the creation response body is an object with no `id`
field, no malformed-response error is signalled; the handler proceeds into
the poll loop with the talk id rendered as the literal string "undefined"
and issues at least one status query (given at least one iteration of
fuel). -/
theorem c2_no_id_still_polls (cfg : Config) (req : Req) (env : Env)
    (fuel : Nat) (rawBody : String) (fs : List (String × JVal))
    (htext : jsFalsy req.text = false)
    (hkey : jsFalsy cfg.DID_API_KEY = false)
    (hcreate : env.create = .resp true rawBody (some (.jobj fs)))
    (hnoid : lookupField fs "id" = none) (hfuel : 0 < fuel) :
    Event.statusQuery "undefined" ∈ (didTalkHandler cfg req env fuel).1 := by
  rw [didTalk_ok_eval cfg req env fuel rawBody fs htext hkey hcreate, hnoid]
  match fuel, hfuel with
  | fuel + 1, _ =>
    exact List.Mem.tail _ (pollLoop_query_issued env.polls "undefined" fuel 0)

/-- C2 witness: the concrete no-`id` environment issues a status query for
the id "undefined". -/
theorem c2_no_id_still_polls_witness :
    Event.statusQuery "undefined" ∈ (didTalkHandler cfg0 req0 envNoId 5).1 :=
  c2_no_id_still_polls cfg0 req0 envNoId 5 "empty-object-body" []
    (by decide) (by decide) rfl rfl (by decide)

/-- C3: with a successful creation and a status-query stream whose every
response is non-terminal, no amount of fuel makes the handler finish: the
poll loop has no attempt or time bound and the request stays running
forever. -/
theorem c3_pending_forever_never_finishes (cfg : Config) (req : Req) (env : Env)
    (rawBody : String) (fs : List (String × JVal))
    (htext : jsFalsy req.text = false)
    (hkey : jsFalsy cfg.DID_API_KEY = false)
    (hcreate : env.create = .resp true rawBody (some (.jobj fs)))
    (hp : ∀ i, ∃ t, env.polls i = .ok (some t) ∧ terminalStatus t = false) :
    ∀ fuel, (didTalkHandler cfg req env fuel).2 = .running := by
  intro fuel
  rw [didTalk_ok_eval cfg req env fuel rawBody fs htext hkey hcreate]
  have h := pollLoop_pending_forever env.polls
    (templateString (lookupField fs "id")) hp fuel 0
  simp [h]

/-- C3 witness: the always-pending environment leaves the handler running at
a concrete fuel bound. -/
theorem c3_pending_forever_never_finishes_witness :
    (didTalkHandler cfg0 req0 envPendingForever 3).2 = .running :=
  c3_pending_forever_never_finishes cfg0 req0 envPendingForever
    "created-abc123" [("id", .jstr "abc123")]
    (by decide) (by decide) rfl
    (fun _ => ⟨pendingJson, rfl, by decide⟩) 3

/-- C4: the poll loop exits on the first status observation whose status is
`done` or `error`: if the observations before `k` are non-terminal and
observation `k` is terminal, the loop (given fuel beyond `k`) runs exactly
`k + 1` wait-then-query iterations, returns that observation, and issues no
further status query. -/
theorem c4_first_terminal_exits (polls : Nat → PollResp) (talkId : String)
    (t : JVal) (k fuel : Nat) (hk : k < fuel)
    (hpend : ∀ m, m < k → ∃ u, polls m = .ok (some u) ∧ terminalStatus u = false)
    (hterm : polls k = .ok (some t)) (ht : terminalStatus t = true) :
    pollLoop polls talkId fuel 0 =
      ((List.replicate (k + 1) (pollBlock talkId)).flatten, .terminal t) :=
  pollLoop_first_stop polls talkId t k fuel 0 hk
    (fun m hm => by
      obtain ⟨u, hu, hcu⟩ := hpend m hm
      exact ⟨u, by simpa using hu, continuePolling_of_not_terminal u hcu⟩)
    (by simpa using hterm)
    (continuePolling_of_terminal t ht)

/-- C4 witness: two `pending` observations then `done`: exactly three
wait-then-query iterations and the terminal result. -/
theorem c4_first_terminal_exits_witness :
    pollLoop polls3 "abc123" 5 0 =
      ((List.replicate 3 (pollBlock "abc123")).flatten, .terminal doneJson) :=
  c4_first_terminal_exits polls3 "abc123" doneJson 2 5 (by decide)
    (fun m hm => match m, hm with
      | 0, _ => ⟨pendingJson, rfl, by decide⟩
      | 1, _ => ⟨pendingJson, rfl, by decide⟩
      | m + 2, hm => absurd hm (by omega))
    rfl (by decide)

/-- C5: a transport failure on any single status query — a network error or
an unparseable body, classified by `pollFailMsg` — terminates the loop at
that very query: exactly `k + 1` wait-then-query iterations happen, the
failure is rethrown (reaching the catch block's 502, not treated as a
pending observation), and no further query is issued. -/
theorem c5_transport_failure_aborts (polls : Nat → PollResp) (talkId : String)
    (msg : String) (k fuel : Nat) (hk : k < fuel)
    (hpend : ∀ m, m < k → ∃ u, polls m = .ok (some u) ∧ terminalStatus u = false)
    (hfail : pollFailMsg (polls k) = some msg) :
    pollLoop polls talkId fuel 0 =
      ((List.replicate (k + 1) (pollBlock talkId)).flatten, .threw msg) :=
  pollLoop_first_fail polls talkId msg k fuel 0 hk
    (fun m hm => by
      obtain ⟨u, hu, hcu⟩ := hpend m hm
      exact ⟨u, by simpa using hu, continuePolling_of_not_terminal u hcu⟩)
    (by simpa using hfail)

/-- C5 witness: one `pending` observation, then a network error: exactly two
wait-then-query iterations and the rethrown failure. -/
theorem c5_transport_failure_aborts_witness :
    pollLoop pollsFail "abc123" 4 0 =
      ((List.replicate 2 (pollBlock "abc123")).flatten, .threw "socket hang up") :=
  c5_transport_failure_aborts pollsFail "abc123" "socket hang up" 1 4 (by decide)
    (fun m hm => match m, hm with
      | 0, _ => ⟨pendingJson, rfl, by decide⟩
      | m + 1, hm => absurd hm (by omega))
    rfl

/-- C6: every poll-session trace is a whole number of wait-then-query
blocks, each block one 3000 ms (3 s) wait followed by one status query: the
first query comes only after one full wait from loop start, and each later
query only after the previous query completed plus a further full wait —
queries are strictly sequential, one wait before each. -/
theorem c6_wait_before_every_query (polls : Nat → PollResp) (talkId : String)
    (fuel i : Nat) :
    ∃ n, n ≤ fuel ∧ (pollLoop polls talkId fuel i).1 =
      (List.replicate n (pollBlock talkId)).flatten :=
  pollLoop_trace_shape polls talkId fuel i

/-- C7: a missing or empty `text` field is rejected synchronously with the
400 "text required" response, and the handler performs no network call of
any kind — the event trace is empty. -/
theorem c7_empty_script_validation (cfg : Config) (req : Req) (env : Env)
    (fuel : Nat) (h : req.text = none ∨ req.text = some "") :
    didTalkHandler cfg req env fuel =
      ([], .finished [⟨400, .jobj [("error", .jstr "text required")]⟩]) := by
  have hf : jsFalsy req.text = true := by
    rcases h with h | h <;> rw [h] <;> rfl
  unfold didTalkHandler
  rw [hf]
  simp

/-- C7 witness: the empty script is rejected with no events. -/
theorem c7_empty_script_validation_witness :
    didTalkHandler cfg0 ⟨some ""⟩ envDone 5 =
      ([], .finished [⟨400, .jobj [("error", .jstr "text required")]⟩]) :=
  c7_empty_script_validation cfg0 ⟨some ""⟩ envDone 5 (Or.inr rfl)

/-- C8 counterexample: a terminal `done` observation with no result-URL
field is not surfaced as an empty/unset result: the success attempt's
`videoUrl` is the entire terminal payload object (the `?? talkResult`
fallback of line 172), which is neither null nor an empty string. -/
theorem c8_counterexample :
    (didTalkHandler cfg0 req0 envDoneNoUrl 5).2 =
      .finished
        [⟨200, .jobj [("videoUrl", doneNoUrlJson)]⟩,
         ⟨500, .jobj [("error", .jstr "D-ID processing failed"),
                      ("detail", doneNoUrlJson)]⟩] ∧
    doneNoUrlJson ≠ .jnull ∧ doneNoUrlJson ≠ .jstr "" :=
  ⟨rfl,
   fun h => JVal.noConfusion
     (show JVal.jobj [("status", JVal.jstr "done")] = JVal.jnull from h),
   fun h => JVal.noConfusion
     (show JVal.jobj [("status", JVal.jstr "done")] = JVal.jstr "" from h)⟩

/-- C8 amended: on a terminal `done` whose payload carries no `result_url`
(field absent or null), the success attempt's `videoUrl` is the entire
terminal payload — substituted by the `??` fallback, not surfaced as
empty/unset — and the observation is still not treated as an error: the 200
success attempt is made (followed by the unconditional 500 attempt of
line 177). -/
theorem c8_done_without_url_returns_payload (cfg : Config) (req : Req)
    (env : Env) (fuel : Nat) (rawBody : String) (fs : List (String × JVal))
    (t : JVal)
    (htext : jsFalsy req.text = false)
    (hkey : jsFalsy cfg.DID_API_KEY = false)
    (hcreate : env.create = .resp true rawBody (some (.jobj fs)))
    (hloop : (pollLoop env.polls (templateString (lookupField fs "id")) fuel 0).2 =
      .terminal t)
    (hdone : isDone t = true)
    (hnourl : t.get "result_url" = none ∨ t.get "result_url" = some .jnull) :
    (didTalkHandler cfg req env fuel).2 =
      .finished
        [⟨200, .jobj [("videoUrl", t)]⟩,
         ⟨500, .jobj [("error", .jstr "D-ID processing failed"),
                      ("detail", t)]⟩] := by
  have hv : videoUrlOf t = t := by
    unfold videoUrlOf
    rcases hnourl with h | h <;> rw [h]
  rw [didTalk_terminal_eval cfg req env fuel rawBody fs t htext hkey hcreate hloop]
  unfold terminalSends
  rw [hdone, hv]
  simp

/-- C8 witness: the concrete `done`-without-URL session returns the whole
payload as the `videoUrl`. -/
theorem c8_done_without_url_returns_payload_witness :
    (didTalkHandler cfg0 req0 envDoneNoUrl 5).2 =
      .finished
        [⟨200, .jobj [("videoUrl", doneNoUrlJson)]⟩,
         ⟨500, .jobj [("error", .jstr "D-ID processing failed"),
                      ("detail", doneNoUrlJson)]⟩] :=
  c8_done_without_url_returns_payload cfg0 req0 envDoneNoUrl 5
    "created-abc123" [("id", .jstr "abc123")] doneNoUrlJson
    (by decide) (by decide) rfl rfl (by decide) (Or.inl rfl)

/-- C9: whenever the poll loop ends with status `done`, the handler executes
two response attempts: first the 200 success carrying the video URL, then —
since line 177 is guarded by no `return` and no `else` — the 500 "D-ID
processing failed" attempt carrying the terminal payload. -/
theorem c9_done_sends_success_then_500 (cfg : Config) (req : Req) (env : Env)
    (fuel : Nat) (rawBody : String) (fs : List (String × JVal)) (t : JVal)
    (htext : jsFalsy req.text = false)
    (hkey : jsFalsy cfg.DID_API_KEY = false)
    (hcreate : env.create = .resp true rawBody (some (.jobj fs)))
    (hloop : (pollLoop env.polls (templateString (lookupField fs "id")) fuel 0).2 =
      .terminal t)
    (hdone : isDone t = true) :
    (didTalkHandler cfg req env fuel).2 =
      .finished
        [⟨200, .jobj [("videoUrl", videoUrlOf t)]⟩,
         ⟨500, .jobj [("error", .jstr "D-ID processing failed"),
                      ("detail", t)]⟩] := by
  rw [didTalk_terminal_eval cfg req env fuel rawBody fs t htext hkey hcreate hloop]
  unfold terminalSends
  rw [hdone]
  simp

/-- C9 witness: a concrete successful session produces exactly the 200
success attempt and then the 500 attempt. -/
theorem c9_done_sends_success_then_500_witness :
    (didTalkHandler cfg0 req0 envDone 5).2 =
      .finished
        [⟨200, .jobj [("videoUrl", .jstr "https://cdn/video.mp4")]⟩,
         ⟨500, .jobj [("error", .jstr "D-ID processing failed"),
                      ("detail", doneJson)]⟩] :=
  c9_done_sends_success_then_500 cfg0 req0 envDone 5
    "created-abc123" [("id", .jstr "abc123")] doneJson
    (by decide) (by decide) rfl rfl (by decide)

/-- C10: the avatar reference placed in the job-creation payload is the
fixed constant alice.jpg URL, and two runs differing only in
`DID_SOURCE_URL` (same key, same request) put the very same payload in
their creation calls: the configured source URL is read at line 101 but
never used in the payload. -/
theorem c10_source_url_ignored (cfg cfg2 : Config) (req : Req)
    (env env2 : Env) (fuel fuel2 : Nat)
    (htext : jsFalsy req.text = false)
    (hkey : jsFalsy cfg.DID_API_KEY = false)
    (hkeys : cfg2.DID_API_KEY = cfg.DID_API_KEY) :
    ∃ p, (didTalkHandler cfg req env fuel).1.head? = some (.createCall p) ∧
      (didTalkHandler cfg2 req env2 fuel2).1.head? = some (.createCall p) ∧
      p.get "source_url" = some (.jstr aliceSourceUrl) :=
  ⟨createPayload (req.text.getD ""),
   didTalk_first_event cfg req env fuel htext hkey,
   didTalk_first_event cfg2 req env2 fuel2 htext (by rw [hkeys]; exact hkey),
   rfl⟩

/-- C10 witness: two configs differing only in `DID_SOURCE_URL` issue
creation calls with one and the same payload, whose `source_url` is the
alice.jpg constant. -/
theorem c10_source_url_ignored_witness :
    ∃ p, (didTalkHandler ⟨some "demo-key", some "https://a.example/x.jpg"⟩
        req0 envDone 1).1.head? = some (.createCall p) ∧
      (didTalkHandler ⟨some "demo-key", some "https://b.example/y.jpg"⟩
        req0 envDone 1).1.head? = some (.createCall p) ∧
      p.get "source_url" = some (.jstr aliceSourceUrl) :=
  c10_source_url_ignored ⟨some "demo-key", some "https://a.example/x.jpg"⟩
    ⟨some "demo-key", some "https://b.example/y.jpg"⟩ req0 envDone envDone 1 1
    (by decide) (by decide) rfl

end AiTutorServer
